import Mathlib

/-!
Verification of the `cloudflare-r2-rs` wrapper (`src/r2.rs`) against its
specification.  The wrapper delegates every operation to the AWS S3 SDK;
the SDK together with the remote service is modelled as an idealized
S3 backend: a key-value store addressed by bucket name and object key,
with explicit fault injection (`Option SdkError`) standing for every way
a single request can fail (transport error, access denied, missing key).
The wrapper methods themselves are translated directly from `src/r2.rs`.
-/

set_option autoImplicit false

namespace CloudflareR2

/-- Endpoint selector for S3-compatible storage, from `R2Endpoint` in `src/r2.rs`:
`Http` carries a full URI, `Bucket` requests an AWS-style endpoint derived
from the region. -/
inductive R2Endpoint where
  | Http : String → R2Endpoint
  | Bucket : R2Endpoint
deriving DecidableEq

/-- Credentials as built by `Credentials::new(client_id, secret, None, None, "custom")`
in `R2Manager::new`. -/
structure Credentials where
  access_key_id : String
  secret_access_key : String
  provider_name : String
deriving DecidableEq

/-- Constructor mirroring `Credentials::new` as invoked in `src/r2.rs`. -/
def Credentials.new (client_id secret : String) : Credentials :=
  { access_key_id := client_id, secret_access_key := secret, provider_name := "custom" }

/-- The parts of the SDK configuration that `R2Manager::new` sets explicitly
via `.credentials_provider(...)`, `.endpoint_url(...)` and `.region(...)`.
Ambient settings loaded by `aws_config::load_from_env()` are not overridden
by this code and play no role in the claims. -/
structure SdkConfig where
  credentials : Credentials
  endpoint_url : String
  region : String
deriving DecidableEq

/-- The `R2Manager` struct of `src/r2.rs`: a bucket name and the configured
client handle (represented by the configuration the client was built from). -/
structure R2Manager where
  bucket_name : String
  client : SdkConfig
deriving DecidableEq

/-- Translation of `R2Manager::new` from `src/r2.rs`: resolve the region
(defaulting to "us-east-1"), resolve the endpoint URL (literal URI for
`Http`, synthesized AWS-style URL for `Bucket`), build credentials and the
SDK configuration, and wrap them in a manager.  The function is total:
the source surfaces no error path of its own. -/
def R2Manager.new (bucket_name : String) (endpoint : R2Endpoint)
    (client_id : String) (secret : String) (region : Option String) : R2Manager :=
  let region := region.getD "us-east-1"
  let endpoint_url := match endpoint with
    | R2Endpoint.Http uri => uri
    | R2Endpoint.Bucket => "https://s3." ++ region ++ ".amazonaws.com"
  let cred := Credentials.new client_id secret
  let s3_config : SdkConfig :=
    { credentials := cred, endpoint_url := endpoint_url, region := region }
  { bucket_name := bucket_name, client := s3_config }

/-- Translation of `R2Manager::get_bucket_name`. -/
def R2Manager.get_bucket_name (self : R2Manager) : String :=
  self.bucket_name

/-- An object as stored by the backend: body bytes plus the two optional
headers the wrapper can attach. -/
structure StoredObject where
  data : List Nat
  cache_control : Option String
  content_type : Option String
deriving DecidableEq

/-- Modelled from the spec: the failure causes of a single SDK request,
which the spec lists as not-found, access-denied and network failure
(plus missing bucket for bucket-level calls). -/
inductive SdkError where
  | noSuchKey : SdkError
  | noSuchBucket : SdkError
  | accessDenied : SdkError
  | transport : SdkError
deriving DecidableEq

/-- Debug rendering of an SDK error, standing for the `{:?}` dump the
wrapper logs at debug level. -/
def SdkError.dump : SdkError → String
  | SdkError.noSuchKey => "NoSuchKey"
  | SdkError.noSuchBucket => "NoSuchBucket"
  | SdkError.accessDenied => "AccessDenied"
  | SdkError.transport => "TransportError"

/-- Modelled from the spec: the remote S3-compatible service state, as the
mock transport of the spec testable properties — a list of bucket names and
an association list from (bucket, key) to stored objects. -/
structure Store where
  buckets : List String
  objects : List ((String × String) × StoredObject)
deriving DecidableEq

/-- Lookup of an object under (bucket, key); first binding wins. -/
def Store.lookupObject (st : Store) (bucket key : String) : Option StoredObject :=
  (st.objects.find? (fun p => p.1 == (bucket, key))).map Prod.snd

/-- The outgoing put-object request assembled by `R2Manager::upload`:
bucket, key, body, and the two optional headers (`none` means the header
is absent from the request). -/
structure PutObjectRequest where
  bucket : String
  key : String
  body : List Nat
  cache_control : Option String
  content_type : Option String
deriving DecidableEq

/-- Modelled from the spec: backend semantics of a create-bucket request.
On a fault the store is unchanged and the error is returned. -/
def s3CreateBucket (st : Store) (bucket : String) (fault : Option SdkError) :
    Store × Except SdkError Unit :=
  match fault with
  | some e => (st, Except.error e)
  | none => ({ st with buckets := bucket :: st.buckets }, Except.ok ())

/-- Modelled from the spec: backend semantics of a delete-bucket request. -/
def s3DeleteBucket (st : Store) (bucket : String) (fault : Option SdkError) :
    Store × Except SdkError Unit :=
  match fault with
  | some e => (st, Except.error e)
  | none => ({ st with buckets := st.buckets.filter (fun b => !(b == bucket)) }, Except.ok ())

/-- Modelled from the spec: backend semantics of a put-object request.
On success the object replaces any previous binding for its (bucket, key). -/
def s3PutObject (st : Store) (req : PutObjectRequest) (fault : Option SdkError) :
    Store × Except SdkError Unit :=
  match fault with
  | some e => (st, Except.error e)
  | none =>
    ({ st with objects :=
        ((req.bucket, req.key),
          { data := req.body, cache_control := req.cache_control,
            content_type := req.content_type }) ::
        st.objects.filter (fun p => !(p.1 == (req.bucket, req.key))) },
     Except.ok ())

/-- Modelled from the spec: backend semantics of a get-object request.
A missing key yields a `noSuchKey` error, exactly like any injected fault:
the SDK reports not-found as an `Err` value. -/
def s3GetObject (st : Store) (bucket key : String) (fault : Option SdkError) :
    Except SdkError StoredObject :=
  match fault with
  | some e => Except.error e
  | none =>
    match st.lookupObject bucket key with
    | some o => Except.ok o
    | none => Except.error SdkError.noSuchKey

/-- Modelled from the spec: backend semantics of a delete-object request;
deleting an absent key is still a success, per S3 semantics. -/
def s3DeleteObject (st : Store) (bucket key : String) (fault : Option SdkError) :
    Store × Except SdkError Unit :=
  match fault with
  | some e => (st, Except.error e)
  | none =>
    ({ st with objects := st.objects.filter (fun p => !(p.1 == (bucket, key))) },
     Except.ok ())

/-- Log levels used by the wrapper (`debug!`, `info!`, `error!`). -/
inductive LogLevel where
  | debug : LogLevel
  | info : LogLevel
  | error : LogLevel
deriving DecidableEq

/-- One emitted log line. -/
structure LogLine where
  level : LogLevel
  msg : String
deriving DecidableEq

/-- Translation of `R2Manager::create_bucket`: send the request, log the
outcome (debug dump plus an info or error line), return nothing. -/
def R2Manager.create_bucket (self : R2Manager) (st : Store) (fault : Option SdkError) :
    Store × List LogLine × Unit :=
  let sent := s3CreateBucket st self.bucket_name fault
  match sent.2 with
  | Except.ok _ =>
    (sent.1,
     [{ level := LogLevel.debug, msg := "CreateBucketOutput" },
      { level := LogLevel.info, msg := "Created successfully " ++ self.bucket_name }],
     ())
  | Except.error e =>
    (sent.1,
     [{ level := LogLevel.debug, msg := e.dump },
      { level := LogLevel.error, msg := "Creation of " ++ self.bucket_name ++ " failed." }],
     ())

/-- Translation of `R2Manager::delete_bucket`. -/
def R2Manager.delete_bucket (self : R2Manager) (st : Store) (fault : Option SdkError) :
    Store × List LogLine × Unit :=
  let sent := s3DeleteBucket st self.bucket_name fault
  match sent.2 with
  | Except.ok _ =>
    (sent.1,
     [{ level := LogLevel.debug, msg := "DeleteBucketOutput" },
      { level := LogLevel.info, msg := "Deleted successfully " ++ self.bucket_name }],
     ())
  | Except.error e =>
    (sent.1,
     [{ level := LogLevel.debug, msg := e.dump },
      { level := LogLevel.error, msg := "Deletion of " ++ self.bucket_name ++ " failed." }],
     ())

/-- The request-building portion of `R2Manager::upload`: start from bucket,
key and body, then attach the cache-control header only when provided, then
the content-type header only when provided. -/
def R2Manager.uploadRequest (self : R2Manager) (object_name : String)
    (object_bytes : List Nat) (cache_control : Option String)
    (content_type : Option String) : PutObjectRequest :=
  let upload_request : PutObjectRequest :=
    { bucket := self.bucket_name, key := object_name, body := object_bytes,
      cache_control := none, content_type := none }
  let upload_request := match cache_control with
    | some cc => { upload_request with cache_control := some cc }
    | none => upload_request
  let upload_request := match content_type with
    | some ct => { upload_request with content_type := some ct }
    | none => upload_request
  upload_request

/-- Translation of `R2Manager::upload`: build the put-object request, send
it, log the outcome, return nothing. -/
def R2Manager.upload (self : R2Manager) (object_name : String)
    (object_bytes : List Nat) (cache_control : Option String)
    (content_type : Option String) (st : Store) (fault : Option SdkError) :
    Store × List LogLine × Unit :=
  let req := self.uploadRequest object_name object_bytes cache_control content_type
  let sent := s3PutObject st req fault
  match sent.2 with
  | Except.ok _ =>
    (sent.1,
     [{ level := LogLevel.debug, msg := "PutObjectOutput" },
      { level := LogLevel.info,
        msg := "Uploaded successfully " ++ object_name ++ " to " ++ self.bucket_name }],
     ())
  | Except.error e =>
    (sent.1,
     [{ level := LogLevel.debug, msg := e.dump },
      { level := LogLevel.error,
        msg := "Upload of " ++ object_name ++ " to " ++ self.bucket_name ++ " failed." }],
     ())

/-- Translation of `R2Manager::get`: send the get-object request; on
success drain the body fully and return its bytes, on any error return
`none` after logging.  The store is not modified by a read. -/
def R2Manager.get (self : R2Manager) (object_name : String) (st : Store)
    (fault : Option SdkError) : List LogLine × Option (List Nat) :=
  match s3GetObject st self.bucket_name object_name fault with
  | Except.ok result =>
    ([{ level := LogLevel.debug, msg := "GetObjectOutput" },
      { level := LogLevel.info,
        msg := "Got successfully " ++ object_name ++ " from " ++ self.bucket_name }],
     some result.data)
  | Except.error e =>
    ([{ level := LogLevel.debug, msg := e.dump },
      { level := LogLevel.error,
        msg := "Unable to get " ++ object_name ++ " from " ++ self.bucket_name ++ "." }],
     none)

/-- Translation of `R2Manager::delete`. -/
def R2Manager.delete (self : R2Manager) (object_name : String) (st : Store)
    (fault : Option SdkError) : Store × List LogLine × Unit :=
  let sent := s3DeleteObject st self.bucket_name object_name fault
  match sent.2 with
  | Except.ok _ =>
    (sent.1,
     [{ level := LogLevel.debug, msg := "DeleteObjectOutput" },
      { level := LogLevel.info,
        msg := "Deleted successfully " ++ object_name ++ " from " ++ self.bucket_name }],
     ())
  | Except.error e =>
    (sent.1,
     [{ level := LogLevel.debug, msg := e.dump },
      { level := LogLevel.error,
        msg := "Deletion of " ++ object_name ++ " from " ++ self.bucket_name ++ " failed." }],
     ())

/-- One method call on an `R2Manager`, for reasoning about call sequences. -/
inductive Op where
  | createBucketOp : Op
  | deleteBucketOp : Op
  | uploadOp : String → List Nat → Option String → Option String → Op
  | getOp : String → Op
  | deleteOp : String → Op

/-- Run one method call: every method takes the manager by shared reference
(`&self`), so the manager after the call is the manager before it; only the
remote store may change. -/
def runOp (self : R2Manager) (st : Store) (op : Op) (fault : Option SdkError) :
    R2Manager × Store :=
  match op with
  | Op.createBucketOp => (self, (self.create_bucket st fault).1)
  | Op.deleteBucketOp => (self, (self.delete_bucket st fault).1)
  | Op.uploadOp k b cc ct => (self, (self.upload k b cc ct st fault).1)
  | Op.getOp _ => (self, st)
  | Op.deleteOp k => (self, (self.delete k st fault).1)

/-- Run a sequence of method calls, each with its own fault outcome. -/
def runOps (self : R2Manager) (st : Store) :
    List (Op × Option SdkError) → R2Manager × Store
  | [] => (self, st)
  | (op, fault) :: rest =>
    let step := runOp self st op fault
    runOps step.1 step.2 rest

/-- Helper: a predicate finds nothing in a list filtered down to its failures. -/
theorem find?_filter_not {α : Type} (l : List α) (p : α → Bool) :
    (l.filter (fun a => !(p a))).find? p = none := by
  induction l with
  | nil => rfl
  | cons a l ih =>
    by_cases h : p a = true
    · simp [List.filter_cons, h, ih]
    · simp only [Bool.not_eq_true] at h
      simp [List.filter_cons, List.find?_cons, h, ih]

/-- Helper: running any single method call leaves the manager itself unchanged,
since every method takes `&self`. -/
theorem runOp_fst (self : R2Manager) (st : Store) (op : Op) (fault : Option SdkError) :
    (runOp self st op fault).1 = self := by
  cases op <;> rfl

/-- Helper: running any sequence of method calls leaves the manager unchanged. -/
theorem runOps_fst (ops : List (Op × Option SdkError)) (self : R2Manager) (st : Store) :
    (runOps self st ops).1 = self := by
  induction ops generalizing self st with
  | nil => rfl
  | cons hd tl ih =>
    cases hd with
    | mk op fault =>
      simp only [runOps]
      rw [ih]
      exact runOp_fst self st op fault

/-- C1: for every key and byte payload, `upload(key, bytes, None, None)` followed by
`get(key)` on the same manager (both requests reaching the service) returns exactly
the payload bytes, unchanged, with no header-dependent modification of the body. -/
theorem upload_get_round_trip (self : R2Manager) (key : String) (bytes : List Nat)
    (st : Store) :
    (self.get key (self.upload key bytes none none st none).1 none).2 = some bytes := by
  simp [R2Manager.get, R2Manager.upload, R2Manager.uploadRequest, s3PutObject,
    s3GetObject, Store.lookupObject, List.find?_cons]

/-- C2: the resolved endpoint URL is exactly the literal URI for `R2Endpoint::Http(uri)`,
and exactly `https://s3.<region>.amazonaws.com` for `R2Endpoint::Bucket`, where
`<region>` is the resolved region. -/
theorem endpoint_resolution (b uri client_id secret : String) (region : Option String) :
    (R2Manager.new b (R2Endpoint.Http uri) client_id secret region).client.endpoint_url = uri
    ∧ (R2Manager.new b R2Endpoint.Bucket client_id secret region).client.endpoint_url =
        "https://s3." ++ region.getD "us-east-1" ++ ".amazonaws.com" :=
  ⟨rfl, rfl⟩

/-- C3: the resolved region is `"us-east-1"` when the region argument is `None`, and
exactly `r` when it is `Some(r)`. -/
theorem region_resolution (b client_id secret : String) (ep : R2Endpoint) :
    (R2Manager.new b ep client_id secret none).client.region = "us-east-1"
    ∧ ∀ r : String, (R2Manager.new b ep client_id secret (some r)).client.region = r :=
  ⟨rfl, fun _ => rfl⟩

/-- C4: `get` returns the fully drained body bytes exactly when the request succeeds,
and `none` for every failing request, the same `none` for every failure cause:
not-found and every injected fault are indistinguishable in the returned value. -/
theorem get_drains_or_collapses (self : R2Manager) (key : String) (st : Store)
    (fault : Option SdkError) :
    (self.get key st fault).2 =
      match fault with
      | some _ => none
      | none => (st.lookupObject self.bucket_name key).map StoredObject.data := by
  cases fault with
  | some e => rfl
  | none =>
    cases h : st.lookupObject self.bucket_name key <;>
      simp [R2Manager.get, s3GetObject, h]

/-- C5: the outgoing put-object request carries no Cache-Control header when
`cache_control` is `None` and no Content-Type header when `content_type` is `None`
(the optional field is absent, not empty); when either is `Some(v)` the header is
attached with exactly the value `v`. -/
theorem upload_header_omission (self : R2Manager) (object_name : String)
    (object_bytes : List Nat) (cache_control content_type : Option String) :
    (self.uploadRequest object_name object_bytes cache_control content_type).cache_control
        = cache_control
    ∧ (self.uploadRequest object_name object_bytes cache_control content_type).content_type
        = content_type := by
  cases cache_control <;> cases content_type <;> exact ⟨rfl, rfl⟩

/-- C6: `create_bucket`, `delete_bucket`, `upload` and `delete` return `()` whether the
request succeeds or fails with any error cause; every error is swallowed after an
error-level log line and no typed failure reaches the caller. -/
theorem mutations_swallow_errors (self : R2Manager) (st : Store) (e : SdkError)
    (object_name key : String) (bytes : List Nat) (cc ct : Option String) :
    (self.create_bucket st (some e)).2.2 = ()
    ∧ LogLine.mk LogLevel.error ("Creation of " ++ self.bucket_name ++ " failed.")
        ∈ (self.create_bucket st (some e)).2.1
    ∧ (self.delete_bucket st (some e)).2.2 = ()
    ∧ LogLine.mk LogLevel.error ("Deletion of " ++ self.bucket_name ++ " failed.")
        ∈ (self.delete_bucket st (some e)).2.1
    ∧ (self.upload object_name bytes cc ct st (some e)).2.2 = ()
    ∧ LogLine.mk LogLevel.error
          ("Upload of " ++ object_name ++ " to " ++ self.bucket_name ++ " failed.")
        ∈ (self.upload object_name bytes cc ct st (some e)).2.1
    ∧ (self.delete key st (some e)).2.2 = ()
    ∧ LogLine.mk LogLevel.error
          ("Deletion of " ++ key ++ " from " ++ self.bucket_name ++ " failed.")
        ∈ (self.delete key st (some e)).2.1
    ∧ (self.create_bucket st none).2.2 = ()
    ∧ (self.delete_bucket st none).2.2 = ()
    ∧ (self.upload object_name bytes cc ct st none).2.2 = ()
    ∧ (self.delete key st none).2.2 = () := by
  simp [R2Manager.create_bucket, R2Manager.delete_bucket, R2Manager.upload,
    R2Manager.delete, s3CreateBucket, s3DeleteBucket, s3PutObject, s3DeleteObject]

/-- C7: `get` on a key absent from the store returns `none` (whatever the fault
outcome of the request), and being a total function it cannot panic or crash. -/
theorem get_nonexistent_none (self : R2Manager) (key : String) (st : Store)
    (fault : Option SdkError) (h : st.lookupObject self.bucket_name key = none) :
    (self.get key st fault).2 = none := by
  cases fault with
  | some e => rfl
  | none => simp [R2Manager.get, s3GetObject, h]

/-- Witness for C7 at a concrete manager, key and empty store. -/
theorem get_nonexistent_none_witness :
    ((R2Manager.new "test-bucket" (R2Endpoint.Http "http://localhost:9000") "k" "s"
        none).get "obj1" { buckets := [], objects := [] } none).2 = none :=
  get_nonexistent_none
    (R2Manager.new "test-bucket" (R2Endpoint.Http "http://localhost:9000") "k" "s" none)
    "obj1" { buckets := [], objects := [] } none rfl

/-- C8: `delete(key)` (the delete request reaching the service) followed by `get(key)`
on the same manager returns `none`, whatever the outcome of the get request and
whether or not the key existed before the delete. -/
theorem delete_get_none (self : R2Manager) (key : String) (st : Store)
    (fg : Option SdkError) :
    (self.get key (self.delete key st none).1 fg).2 = none := by
  cases fg with
  | some e => rfl
  | none =>
    simp only [R2Manager.get, R2Manager.delete, s3DeleteObject, s3GetObject,
      Store.lookupObject]
    rw [find?_filter_not]
    rfl

/-- C9: construction is total — for every bucket name, endpoint, credentials and
region, `R2Manager::new` returns an `R2Manager` whose fields are fully determined
by the inputs; the only fallible step is the external SDK configuration build, and
no recoverable error path is surfaced by this code (the return type carries none). -/
theorem new_total_no_error (b client_id secret : String) (ep : R2Endpoint)
    (region : Option String) :
    R2Manager.new b ep client_id secret region =
      { bucket_name := b,
        client :=
          { credentials := Credentials.new client_id secret,
            endpoint_url := match ep with
              | R2Endpoint.Http uri => uri
              | R2Endpoint.Bucket =>
                  "https://s3." ++ region.getD "us-east-1" ++ ".amazonaws.com",
            region := region.getD "us-east-1" } } :=
  rfl

/-- C10: a manager built with bucket name `b` reports `get_bucket_name() = b`, this
accessor is total, and its value is unchanged after any sequence of `create_bucket`,
`delete_bucket`, `upload`, `get` and `delete` calls with any fault outcomes: no
operation mutates the stored bucket name or replaces the client handle. -/
theorem get_bucket_name_stable (b client_id secret : String) (ep : R2Endpoint)
    (region : Option String) (st : Store) (ops : List (Op × Option SdkError)) :
    (runOps (R2Manager.new b ep client_id secret region) st ops).1.get_bucket_name = b
    ∧ (runOps (R2Manager.new b ep client_id secret region) st ops).1 =
        R2Manager.new b ep client_id secret region := by
  rw [runOps_fst]
  exact ⟨rfl, rfl⟩

end CloudflareR2
